import Mathlib

/-!
Verification of the KPI dashboard core (gbca repository).

The repository duplicates one small core across two adapter shells
(`src/kpi/main.py` and `src/mcp/kpi/{helpers,api,main}.py`); the logic is
line-for-line identical, so each function is embedded once, from the
`src/mcp/kpi` copy, with the `src/kpi/main.py` line numbers noted where a
claim cites them.

Modelling conventions:
* Python numbers (ints and floats holding exact decimal data) are modelled
  as `ℚ`; decimal literals such as `4.2` are exact rationals.
* A Python dict used as an ordered mapping (`SAMPLE_KPI_DATA["metrics"]`)
  is an association list `List (String × MetricInfo)`; Python dicts
  preserve insertion order, which is the iteration order of the loop in
  `analyze_kpi_trends`.
* Network fetches (`fetch_kpi_data_sync`, `httpx.get`) are impure; each
  tool function takes the fetch outcome as an explicit `Option` argument
  (`none` = the request raised / the endpoint was unreachable).
* Python f-string insight messages are modelled by the inductive
  `InsightMsg`: one constructor per template string, carrying the numbers
  interpolated into it (the `:.1f` display formatting is presentation
  only and is not modelled).
-/

/-- One time-series sample: a Python dict `{"month": ..., "value": ...}`
from `SAMPLE_KPI_DATA` (src/mcp/kpi/api.py lines 24-94). -/
structure Sample where
  month : String
  value : ℚ
deriving DecidableEq

/-- The per-metric record `{"unit": ..., "description": ..., "data": [...]}`. -/
structure MetricInfo where
  unit : String
  description : String
  data : List Sample
deriving DecidableEq

/-- The `company_info` block of `SAMPLE_KPI_DATA`. -/
structure CompanyInfo where
  name : String
  founded : String
  industry : String
  stage : String
deriving DecidableEq

/-- The whole `SAMPLE_KPI_DATA` table: an ordered metrics mapping plus
company metadata.  The `last_updated` field (a `datetime.now()` string
computed at import time) is impure display data and is not modelled. -/
structure KpiData where
  metrics : List (String × MetricInfo)
  company_info : CompanyInfo
deriving DecidableEq

/-- Dict lookup `data["metrics"][name]` / membership `name in data["metrics"]`
on the ordered mapping; keys are unique in the store, so `find?` agrees
with Python dict access. -/
def lookupMetric (metrics : List (String × MetricInfo)) (name : String) :
    Option MetricInfo :=
  (metrics.find? (fun p => p.fst == name)).map Prod.snd

/-- `data[-1]["value"] if data else 0` (src/mcp/kpi/helpers.py line 59).
`compare_metrics` and the success path of `get_metric_analysis` index
`data[-1]` without the guard; Python would raise `IndexError` on an empty
series there, but every series in the store is non-empty, so the guarded
form models all call sites on reachable data. -/
def latestValueD (data : List Sample) : ℚ :=
  ((data.getLast?).map Sample.value).getD 0

/-- `calculate_growth_rate` (src/mcp/kpi/helpers.py lines 39-50 =
src/kpi/main.py lines 225-236).  `data[0]` and `data[-1]` are modelled
with `head?`/`getLast?` defaulted to `0`; the defaults are unreachable
because the length guard has already returned `0.0` for short lists. -/
def calculate_growth_rate (data : List Sample) : ℚ :=
  if data.length < 2 then 0
  else
    let first_value := ((data.head?).map Sample.value).getD 0
    let last_value := ((data.getLast?).map Sample.value).getD 0
    if first_value = 0 then 0
    else ((last_value - first_value) / first_value) * 100

/-- Python `round(x, 2)`: round to 2 decimal places, ties to even
(banker's rounding, Python's behaviour on ties). -/
def round2 (x : ℚ) : ℚ :=
  let y := x * 100
  let n : ℤ :=
    if y - ⌊y⌋ < 1 / 2 then ⌊y⌋
    else if 1 / 2 < y - ⌊y⌋ then ⌊y⌋ + 1
    else if ⌊y⌋ % 2 = 0 then ⌊y⌋ else ⌊y⌋ + 1
  (n : ℚ) / 100

/-- Unfolding of `calculate_growth_rate` once the length guard has been
passed. -/
theorem calculate_growth_rate_of_two_le (data : List Sample)
    (h : ¬ data.length < 2) :
    calculate_growth_rate data =
      if ((data.head?).map Sample.value).getD 0 = 0 then 0
      else ((((data.getLast?).map Sample.value).getD 0 -
              ((data.head?).map Sample.value).getD 0) /
            ((data.head?).map Sample.value).getD 0) * 100 := by
  rw [calculate_growth_rate, if_neg h]

/-- C1: `calculate_growth_rate` returns 0 when the list has fewer than 2
elements; with at least 2 elements it returns 0 when the first sample's
value is 0, and otherwise `((last.value - first.value) / first.value) * 100`
computed from the chronologically first and last samples only. -/
theorem C1_growth_rate_spec (data : List Sample) (first lastS : Sample)
    (rest : List Sample) :
    (data.length < 2 → calculate_growth_rate data = 0) ∧
    (data = first :: rest → rest ≠ [] → data.getLast? = some lastS →
      (first.value = 0 → calculate_growth_rate data = 0) ∧
      (first.value ≠ 0 →
        calculate_growth_rate data =
          ((lastS.value - first.value) / first.value) * 100)) := by
  constructor
  · intro h
    simp [calculate_growth_rate, h]
  · rintro rfl hrest hlast
    have hlen : ¬ (first :: rest).length < 2 := by
      cases rest with
      | nil => exact absurd rfl hrest
      | cons b t => simp
    rw [calculate_growth_rate_of_two_le _ hlen, hlast]
    simp only [List.head?_cons, Option.map_some', Option.getD_some]
    constructor
    · intro h0
      rw [if_pos h0]
    · intro h0
      rw [if_neg h0]

/-- Witness for C1 at a concrete input: two samples 100 → 150 give a
growth rate of 50. -/
theorem C1_growth_rate_spec_witness :
    calculate_growth_rate [⟨"2025-01", 100⟩, ⟨"2025-02", 150⟩] = 50 := by
  have h := (C1_growth_rate_spec [⟨"2025-01", 100⟩, ⟨"2025-02", 150⟩]
      ⟨"2025-01", 100⟩ ⟨"2025-02", 150⟩ [⟨"2025-02", 150⟩]).2
      rfl (by simp) rfl
  have h2 := h.2 (by norm_num)
  rw [h2]
  norm_num

/-- C9: inserting a sample at any middle position (neither first nor
last) of a list with at least 2 samples does not change
`calculate_growth_rate`: the function reads only the first and last
samples. -/
theorem C9_middle_insert_invariant (first s lastS : Sample)
    (mid1 mid2 : List Sample) :
    calculate_growth_rate (first :: ((mid1 ++ s :: mid2) ++ [lastS])) =
      calculate_growth_rate (first :: ((mid1 ++ mid2) ++ [lastS])) := by
  have hlast1 : (first :: ((mid1 ++ s :: mid2) ++ [lastS])).getLast? = some lastS := by
    rw [← List.cons_append, ← List.cons_append]
    exact List.getLast?_concat _
  have hlast2 : (first :: ((mid1 ++ mid2) ++ [lastS])).getLast? = some lastS := by
    rw [← List.cons_append, ← List.cons_append]
    exact List.getLast?_concat _
  have hlen1 : ¬ (first :: ((mid1 ++ s :: mid2) ++ [lastS])).length < 2 := by
    simp only [List.length_cons, List.length_append, Nat.not_lt]
    omega
  have hlen2 : ¬ (first :: ((mid1 ++ mid2) ++ [lastS])).length < 2 := by
    simp only [List.length_cons, List.length_append, Nat.not_lt]
    omega
  rw [calculate_growth_rate_of_two_le _ hlen1,
    calculate_growth_rate_of_two_le _ hlen2, hlast1, hlast2]
  simp only [List.head?_cons]

/-- One insight message template per branch of the conditional chain in
`analyze_kpi_trends` (src/mcp/kpi/helpers.py lines 62-90), carrying the
numbers interpolated into the f-string. -/
inductive InsightMsg
  | mrrExcellent (growth : ℚ)
  | mrrSolid (growth : ℚ)
  | mrrFocus (growth : ℚ)
  | churnExcellent (latest : ℚ)
  | churnGood (latest : ℚ)
  | churnUrgent (latest : ℚ)
  | usersOutstanding (growth : ℚ)
  | usersGood (growth : ℚ)
  | usersConsider (growth : ℚ)
  | genericUp (metric : String) (growth : ℚ)
  | genericDown (metric : String) (decline : ℚ)
deriving DecidableEq

/-- The message-selection logic of the loop body of `analyze_kpi_trends`,
re-expressed as a function of the UNROUNDED growth rate and the latest
value alone (used to state C6). -/
def selectInsightMsg (metric_name : String) (growth_rate latest_value : ℚ) :
    InsightMsg :=
  if metric_name = "monthly_recurring_revenue" then
    if growth_rate > 15 then .mrrExcellent growth_rate
    else if growth_rate > 5 then .mrrSolid growth_rate
    else .mrrFocus growth_rate
  else if metric_name = "churn_rate" then
    if latest_value < 3 then .churnExcellent latest_value
    else if latest_value < 5 then .churnGood latest_value
    else .churnUrgent latest_value
  else if metric_name = "active_users" then
    if growth_rate > 20 then .usersOutstanding growth_rate
    else if growth_rate > 10 then .usersGood growth_rate
    else .usersConsider growth_rate
  else
    if growth_rate > 0 then .genericUp metric_name growth_rate
    else .genericDown metric_name |growth_rate|

/-- One record appended to `insights` per loop iteration
(src/mcp/kpi/helpers.py lines 92-98). -/
structure Insight where
  metric : String
  current_value : ℚ
  growth_rate : ℚ
  insight : InsightMsg
  unit : String
deriving DecidableEq

/-- The loop body of `analyze_kpi_trends` for one `(metric_name,
metric_info)` pair (src/mcp/kpi/helpers.py lines 56-98 = src/kpi/main.py
lines 242-284); the spec calls this per-metric computation
`trend_insight`.  The conditional chain mirrors the source; the output
`growth_rate` field is `round(growth_rate, 2)` while every threshold test
reads the unrounded `growth_rate` local. -/
def trend_insight (metric_name : String) (metric_info : MetricInfo) : Insight :=
  let data := metric_info.data
  let growth_rate := calculate_growth_rate data
  let latest_value := latestValueD data
  let insight : InsightMsg :=
    if metric_name = "monthly_recurring_revenue" then
      if growth_rate > 15 then .mrrExcellent growth_rate
      else if growth_rate > 5 then .mrrSolid growth_rate
      else .mrrFocus growth_rate
    else if metric_name = "churn_rate" then
      if latest_value < 3 then .churnExcellent latest_value
      else if latest_value < 5 then .churnGood latest_value
      else .churnUrgent latest_value
    else if metric_name = "active_users" then
      if growth_rate > 20 then .usersOutstanding growth_rate
      else if growth_rate > 10 then .usersGood growth_rate
      else .usersConsider growth_rate
    else
      if growth_rate > 0 then .genericUp metric_name growth_rate
      else .genericDown metric_name |growth_rate|
  { metric := metric_name
    current_value := latest_value
    growth_rate := round2 growth_rate
    insight := insight
    unit := metric_info.unit }

/-- `analyze_kpi_trends` (src/mcp/kpi/helpers.py lines 52-100 =
src/kpi/main.py lines 238-286): start from an empty list and append one
insight per metric of the store, in dict iteration (= insertion) order. -/
def analyze_kpi_trends (kpi_data : KpiData) : List Insight :=
  kpi_data.metrics.foldl
    (fun insights p => insights ++ [trend_insight p.fst p.snd]) []

/-- The literal `SAMPLE_KPI_DATA` table (src/mcp/kpi/api.py lines 24-94). -/
def SAMPLE_KPI_DATA : KpiData where
  metrics := [
    ("monthly_recurring_revenue",
      { unit := "USD"
        description := "Monthly Recurring Revenue - predictable revenue from subscriptions"
        data := [⟨"2025-03", 8800⟩, ⟨"2025-04", 9700⟩, ⟨"2025-05", 10500⟩,
                 ⟨"2025-06", 11400⟩, ⟨"2025-07", 12250⟩, ⟨"2025-08", 12500⟩] }),
    ("active_users",
      { unit := "users"
        description := "Monthly Active Users - unique users who engaged with the product"
        data := [⟨"2025-03", 2100⟩, ⟨"2025-04", 2350⟩, ⟨"2025-05", 2675⟩,
                 ⟨"2025-06", 2920⟩, ⟨"2025-07", 3050⟩, ⟨"2025-08", 3100⟩] }),
    ("churn_rate",
      { unit := "%"
        description := "Customer Churn Rate - percentage of customers who stopped using the service"
        data := [⟨"2025-03", 4.2⟩, ⟨"2025-04", 3.8⟩, ⟨"2025-05", 3.3⟩,
                 ⟨"2025-06", 2.7⟩, ⟨"2025-07", 2.3⟩, ⟨"2025-08", 2.1⟩] }),
    ("customer_acquisition_cost",
      { unit := "USD"
        description := "Customer Acquisition Cost - average cost to acquire a new customer"
        data := [⟨"2025-03", 85⟩, ⟨"2025-04", 78⟩, ⟨"2025-05", 72⟩,
                 ⟨"2025-06", 68⟩, ⟨"2025-07", 65⟩, ⟨"2025-08", 62⟩] }),
    ("lifetime_value",
      { unit := "USD"
        description := "Customer Lifetime Value - predicted revenue from a customer relationship"
        data := [⟨"2025-03", 580⟩, ⟨"2025-04", 620⟩, ⟨"2025-05", 650⟩,
                 ⟨"2025-06", 680⟩, ⟨"2025-07", 720⟩, ⟨"2025-08", 750⟩] })]
  company_info :=
    { name := "GivingbackAI CoFounder Agent"
      founded := "2024-01-01"
      industry := "SaaS"
      stage := "Early Growth" }

/-- The `status` discriminator returned by every MCP tool
(spec section 6: `success | error | success_fallback`). -/
inductive Status
  | success
  | error
  | success_fallback
deriving DecidableEq

/-- Return shape of `fetch_startup_kpis`: on a failed fetch the dict is
`{"error": ..., "status": "error", "fallback_data": SAMPLE_KPI_DATA}`, on
success `{"status": "success", "data": ..., "fetched_at": ...}`
(src/mcp/kpi/main.py lines 17-39; `fetched_at` is an impure timestamp,
not modelled). -/
structure FetchKpisResult where
  status : Status
  data : Option KpiData
  fallback_data : Option KpiData
  error : Option String
deriving DecidableEq

/-- `fetch_startup_kpis` (src/mcp/kpi/main.py lines 17-39 =
src/kpi/main.py lines 289-311), with the outcome of
`fetch_kpi_data_sync()` passed explicitly (`none` = request failed). -/
def fetch_startup_kpis (fetched : Option KpiData) : FetchKpisResult :=
  match fetched with
  | none =>
      { status := .error
        data := none
        fallback_data := some SAMPLE_KPI_DATA
        error := some "Failed to fetch KPI data from API" }
  | some d =>
      { status := .success
        data := some d
        fallback_data := none
        error := none }

/-- The three-way `trend_direction` classification of
`get_metric_analysis`. -/
inductive TrendDirection
  | up
  | down
  | stable
deriving DecidableEq

/-- Success payload of `get_metric_analysis` (src/mcp/kpi/main.py lines
63-73). -/
structure MetricAnalysis where
  metric : String
  current_value : ℚ
  growth_rate : ℚ
  trend_direction : TrendDirection
  data_points : ℕ
  unit : String
  description : String
  raw_data : List Sample
deriving DecidableEq

/-- Result of `get_metric_analysis`: the success dict, or the
`{"status": "error", "error": ...}` dict from the except-branch. -/
inductive AnalysisResult
  | success (analysis : MetricAnalysis)
  | error (message : String)
deriving DecidableEq

/-- `get_metric_analysis` (src/mcp/kpi/main.py lines 42-80 =
src/kpi/main.py lines 314-352).  The `GET /kpi/{metric_name}` outcome is
the explicit `fetched` argument: `none` = the request raised or returned
a non-2xx status (including 404 for an unknown metric), and the
except-branch answers with a structured error (the Python message also
interpolates the exception text).  `current_value` is
`data_points[-1]["value"] if data_points else 0`. -/
def get_metric_analysis (metric_name : String) (fetched : Option MetricInfo) :
    AnalysisResult :=
  match fetched with
  | none => .error "Failed to analyze metric"
  | some info =>
      let data_points := info.data
      let growth_rate := calculate_growth_rate data_points
      .success
        { metric := metric_name
          current_value := latestValueD data_points
          growth_rate := round2 growth_rate
          trend_direction :=
            if growth_rate > 0 then .up
            else if growth_rate < 0 then .down
            else .stable
          data_points := data_points.length
          unit := info.unit
          description := info.description
          raw_data := data_points }

/-- The trend direction of an analysis result, when it succeeded. -/
def AnalysisResult.trendOf : AnalysisResult → Option TrendDirection
  | .success a => some a.trend_direction
  | .error _ => none

/-- Return shape of `generate_business_insights`: a status plus the list
of insight records (the timestamps and fixed summary strings are not
modelled). -/
structure InsightsResult where
  status : Status
  insights : List Insight
deriving DecidableEq

/-- `generate_business_insights` (src/mcp/kpi/main.py lines 82-113 =
src/kpi/main.py lines 354-385).  `fetched` is the insight list served by
`GET /insights` (`none` = the request raised); on failure the
except-branch recomputes insights locally from `SAMPLE_KPI_DATA` and
reports `success_fallback`. -/
def generate_business_insights (fetched : Option (List Insight)) :
    InsightsResult :=
  match fetched with
  | some remote => { status := .success, insights := remote }
  | none =>
      { status := .success_fallback
        insights := analyze_kpi_trends SAMPLE_KPI_DATA }

/-- One side of the `comparison` dict built by `compare_metrics`
(src/mcp/kpi/main.py lines 145-154). -/
structure CompareEntry where
  growth_rate : ℚ
  current_value : ℚ
  unit : String
deriving DecidableEq

/-- The coarse same-sign `correlation` classification. -/
inductive Correlation
  | positive
  | negative
deriving DecidableEq

/-- Result of `compare_metrics`: the error dict, or the success dict
holding the two comparison entries and the correlation (the `analysis`
display string is presentation only and is not modelled). -/
inductive CompareResult
  | error (message : String)
  | success (entry1 entry2 : CompareEntry) (correlation : Correlation)
deriving DecidableEq

/-- `compare_metrics` (src/mcp/kpi/main.py lines 115-158 =
src/kpi/main.py lines 387-430), with the `fetch_kpi_data_sync()` outcome
explicit.  Python tests `if not data or metric1 not in data["metrics"] or
metric2 not in data["metrics"]`; a fetched table is a non-empty dict and
hence truthy, so `not data` is exactly `fetched = none`.
`metric1_data[-1]["value"]` is unguarded in the source (an empty series
would raise `IndexError`); `latestValueD` models it on the non-empty
series the store actually holds. -/
def compare_metrics (fetched : Option KpiData) (metric1 metric2 : String) :
    CompareResult :=
  match fetched with
  | none => .error "One or both metrics not found"
  | some data =>
      match lookupMetric data.metrics metric1, lookupMetric data.metrics metric2 with
      | some info1, some info2 =>
          let metric1_data := info1.data
          let metric2_data := info2.data
          let growth1 := calculate_growth_rate metric1_data
          let growth2 := calculate_growth_rate metric2_data
          .success
            { growth_rate := round2 growth1
              current_value := latestValueD metric1_data
              unit := info1.unit }
            { growth_rate := round2 growth2
              current_value := latestValueD metric2_data
              unit := info2.unit }
            (if (growth1 > 0 ∧ growth2 > 0) ∨ (growth1 < 0 ∧ growth2 < 0)
              then .positive else .negative)
      | _, _ => .error "One or both metrics not found"

/-- Whether a comparison result is the error dict. -/
def CompareResult.isError : CompareResult → Bool
  | .error _ => true
  | .success _ _ _ => false

/-- The correlation of a comparison result, when it succeeded. -/
def CompareResult.correlationOf : CompareResult → Option Correlation
  | .error _ => none
  | .success _ _ c => some c

/-- The `churn_rate` series of the store (latest value 2.1), used to
instantiate the churn insight rules. -/
def churnInfo : MetricInfo where
  unit := "%"
  description := "Customer Churn Rate - percentage of customers who stopped using the service"
  data := [⟨"2025-03", 4.2⟩, ⟨"2025-04", 3.8⟩, ⟨"2025-05", 3.3⟩,
           ⟨"2025-06", 2.7⟩, ⟨"2025-07", 2.3⟩, ⟨"2025-08", 2.1⟩]

/-- An MRR series whose growth rate is exactly 15.004: above the
threshold 15 before rounding, but equal to 15 after rounding to 2
decimal places.  It separates threshold evaluation on the unrounded rate
from evaluation on the rounded one. -/
def mrrBoundaryInfo : MetricInfo where
  unit := "USD"
  description := "Monthly Recurring Revenue - predictable revenue from subscriptions"
  data := [⟨"2025-01", 100000⟩, ⟨"2025-02", 115004⟩]

/-- A series growing 100 → 110: growth rate +10. -/
def infoPlusTen : MetricInfo where
  unit := "USD"
  description := "series with growth rate plus ten"
  data := [⟨"2025-01", 100⟩, ⟨"2025-02", 110⟩]

/-- A series growing 100 → 105: growth rate +5. -/
def infoPlusFive : MetricInfo where
  unit := "USD"
  description := "series with growth rate plus five"
  data := [⟨"2025-01", 100⟩, ⟨"2025-02", 105⟩]

/-- A series declining 100 → 95: growth rate -5. -/
def infoMinusFive : MetricInfo where
  unit := "USD"
  description := "series with growth rate minus five"
  data := [⟨"2025-01", 100⟩, ⟨"2025-02", 95⟩]

/-- A store holding the three series above, for exercising
`compare_metrics` on growth rates +10, +5 and -5. -/
def compareStore : KpiData where
  metrics := [("metric_plus_ten", infoPlusTen),
              ("metric_plus_five", infoPlusFive),
              ("metric_minus_five", infoMinusFive)]
  company_info :=
    { name := "Test", founded := "2024-01-01", industry := "SaaS"
      stage := "Early Growth" }

/-- Evaluation of `round2` when the fractional part of `x * 100` is below
one half. -/
theorem round2_eq_floor_div (x : ℚ) (z : ℤ) (hf : ⌊x * 100⌋ = z)
    (hlt : x * 100 - (z : ℚ) < 1 / 2) :
    round2 x = (z : ℚ) / 100 := by
  simp only [round2]
  rw [hf, if_pos hlt]

/-- Rounding zero to 2 decimal places gives zero. -/
theorem round2_zero : round2 0 = 0 := by
  have h := round2_eq_floor_div 0 0 (by norm_num) (by norm_num)
  simpa using h

/-- C7: `trend_insight` is total (it is a Lean function, defined for every
series), and an empty series yields `current_value = 0` and
`growth_rate = 0`. -/
theorem C7_empty_series_insight (metric_name u d : String) :
    (trend_insight metric_name
      { unit := u, description := d, data := [] }).current_value = 0 ∧
    (trend_insight metric_name
      { unit := u, description := d, data := [] }).growth_rate = 0 := by
  constructor
  · rfl
  · show round2 (calculate_growth_rate []) = 0
    have h0 : calculate_growth_rate [] = 0 := rfl
    rw [h0, round2_zero]

/-- Flattening of the append-accumulating fold of `analyze_kpi_trends`. -/
theorem analyze_foldl_eq_append_map (l : List (String × MetricInfo))
    (acc : List Insight) :
    l.foldl (fun insights p => insights ++ [trend_insight p.fst p.snd]) acc =
      acc ++ l.map (fun p => trend_insight p.fst p.snd) := by
  induction l generalizing acc with
  | nil => simp
  | cons p t ih => simp [List.foldl_cons, ih]

/-- C8: `analyze_kpi_trends` returns exactly one insight per stored
metric (the image of `trend_insight` over the store), in store iteration
order, and its result is empty exactly when the store is empty. -/
theorem C8_one_insight_per_metric (kpi_data : KpiData) :
    analyze_kpi_trends kpi_data =
      kpi_data.metrics.map (fun p => trend_insight p.fst p.snd) ∧
    (analyze_kpi_trends kpi_data).length = kpi_data.metrics.length ∧
    (analyze_kpi_trends kpi_data = [] ↔ kpi_data.metrics = []) := by
  have hmap : analyze_kpi_trends kpi_data =
      kpi_data.metrics.map (fun p => trend_insight p.fst p.snd) := by
    unfold analyze_kpi_trends
    simpa using analyze_foldl_eq_append_map kpi_data.metrics []
  refine ⟨hmap, by rw [hmap]; simp, by rw [hmap]; simp⟩

/-- C10: on a successful fetch, `get_metric_analysis` classifies
`trend_direction` as `up` exactly when the growth rate is strictly
positive, `down` exactly when strictly negative, and `stable` exactly
when zero. -/
theorem C10_trend_direction_sign (metric_name : String) (info : MetricInfo) :
    ((get_metric_analysis metric_name (some info)).trendOf =
        some TrendDirection.up ↔ 0 < calculate_growth_rate info.data) ∧
    ((get_metric_analysis metric_name (some info)).trendOf =
        some TrendDirection.down ↔ calculate_growth_rate info.data < 0) ∧
    ((get_metric_analysis metric_name (some info)).trendOf =
        some TrendDirection.stable ↔ calculate_growth_rate info.data = 0) := by
  have h : (get_metric_analysis metric_name (some info)).trendOf =
      some (if calculate_growth_rate info.data > 0 then TrendDirection.up
        else if calculate_growth_rate info.data < 0 then TrendDirection.down
        else TrendDirection.stable) := rfl
  rw [h]
  rcases lt_trichotomy (calculate_growth_rate info.data) 0 with hlt | heq | hgt
  · have hng : ¬ calculate_growth_rate info.data > 0 := by linarith
    simp [if_neg hng, if_pos hlt, hlt, hlt.ne, hng]
  · simp [heq]
  · have hnl : ¬ calculate_growth_rate info.data < 0 := by linarith
    simp [if_pos hgt, hgt, hnl, hgt.ne']

/-- C2 counterexample: with the upstream fetch unreachable,
`fetch_startup_kpis` does use the static default dataset (it returns it
as `fallback_data`) but its status discriminator is `error`, not
`success_fallback`; and `compare_metrics` does not fall back to the
default dataset at all — it returns a plain error. -/
theorem C2_fallback_counterexample :
    (fetch_startup_kpis none).fallback_data = some SAMPLE_KPI_DATA ∧
    (fetch_startup_kpis none).status = Status.error ∧
    (fetch_startup_kpis none).status ≠ Status.success_fallback ∧
    compare_metrics none "monthly_recurring_revenue" "active_users" =
      CompareResult.error "One or both metrics not found" := by
  refine ⟨rfl, rfl, by decide, rfl⟩

/-- C2 amended: no tool raises when the upstream fetch fails, but only
`generate_business_insights` falls back to the static default dataset
with status `success_fallback`; `fetch_startup_kpis` attaches the default
dataset as `fallback_data` yet reports status `error`, and
`get_metric_analysis` and `compare_metrics` report a structured error
with no fallback dataset. -/
theorem C2_fallback_behaviour (m1 m2 name : String) :
    (fetch_startup_kpis none).status = Status.error ∧
    (fetch_startup_kpis none).fallback_data = some SAMPLE_KPI_DATA ∧
    (∀ d : KpiData, (fetch_startup_kpis (some d)).status = Status.success) ∧
    (generate_business_insights none).status = Status.success_fallback ∧
    (generate_business_insights none).insights =
      analyze_kpi_trends SAMPLE_KPI_DATA ∧
    compare_metrics none m1 m2 =
      CompareResult.error "One or both metrics not found" ∧
    get_metric_analysis name none =
      AnalysisResult.error "Failed to analyze metric" :=
  ⟨rfl, rfl, fun _ => rfl, rfl, rfl, rfl, rfl⟩

/-- C5: for a `churn_rate` series the insight message is selected by the
latest sample's value alone — below 3 the excellent message, below 5 the
good message, otherwise the urgent-attention message — for every series,
hence independently of the growth rate's sign. -/
theorem C5_churn_insight_by_current_value (info : MetricInfo) :
    (latestValueD info.data < 3 →
      (trend_insight "churn_rate" info).insight =
        InsightMsg.churnExcellent (latestValueD info.data)) ∧
    (¬ latestValueD info.data < 3 → latestValueD info.data < 5 →
      (trend_insight "churn_rate" info).insight =
        InsightMsg.churnGood (latestValueD info.data)) ∧
    (¬ latestValueD info.data < 5 →
      (trend_insight "churn_rate" info).insight =
        InsightMsg.churnUrgent (latestValueD info.data)) := by
  have hbase : (trend_insight "churn_rate" info).insight =
      (if latestValueD info.data < 3 then
        InsightMsg.churnExcellent (latestValueD info.data)
      else if latestValueD info.data < 5 then
        InsightMsg.churnGood (latestValueD info.data)
      else InsightMsg.churnUrgent (latestValueD info.data)) := rfl
  rw [hbase]
  refine ⟨fun h3 => ?_, fun h3 h5 => ?_, fun h5 => ?_⟩
  · rw [if_pos h3]
  · rw [if_neg h3, if_pos h5]
  · have h3 : ¬ latestValueD info.data < 3 := fun h => h5 (by linarith)
    rw [if_neg h3, if_neg h5]

/-- Witness for C5 at the store's churn series: the latest value 2.1 is
below 3, so the excellent branch is selected even though the series is
strictly declining (negative growth). -/
theorem C5_churn_insight_by_current_value_witness :
    (trend_insight "churn_rate" churnInfo).insight =
      InsightMsg.churnExcellent (2.1 : ℚ) := by
  have hval : latestValueD churnInfo.data = (2.1 : ℚ) := rfl
  have h := (C5_churn_insight_by_current_value churnInfo).1
      (by rw [hval]; norm_num)
  rw [hval] at h
  exact h

/-- C6: in every insight produced, the `growth_rate` field is the
computed growth rate rounded to 2 decimal places, while the message is
selected from the UNROUNDED growth rate (and the latest value); on the
boundary series with growth rate 15.004 the unrounded value clears the
threshold 15 and selects the excellent message although the rounded
output value is exactly 15. -/
theorem C6_rounded_output_unrounded_thresholds (metric_name : String)
    (info : MetricInfo) :
    (trend_insight metric_name info).growth_rate =
      round2 (calculate_growth_rate info.data) ∧
    (trend_insight metric_name info).insight =
      selectInsightMsg metric_name (calculate_growth_rate info.data)
        (latestValueD info.data) ∧
    ((trend_insight "monthly_recurring_revenue" mrrBoundaryInfo).insight =
        InsightMsg.mrrExcellent (15.004 : ℚ) ∧
      (trend_insight "monthly_recurring_revenue" mrrBoundaryInfo).growth_rate
        = 15) := by
  refine ⟨rfl, rfl, ?_, ?_⟩
  · have hg : calculate_growth_rate mrrBoundaryInfo.data = (15.004 : ℚ) := by
      norm_num [mrrBoundaryInfo, calculate_growth_rate]
    show selectInsightMsg "monthly_recurring_revenue"
        (calculate_growth_rate mrrBoundaryInfo.data)
        (latestValueD mrrBoundaryInfo.data) =
      InsightMsg.mrrExcellent (15.004 : ℚ)
    rw [hg]
    unfold selectInsightMsg
    rw [if_pos rfl, if_pos (by norm_num : (15.004 : ℚ) > 15)]
  · have hg : calculate_growth_rate mrrBoundaryInfo.data = (15.004 : ℚ) := by
      norm_num [mrrBoundaryInfo, calculate_growth_rate]
    show round2 (calculate_growth_rate mrrBoundaryInfo.data) = 15
    rw [hg, round2_eq_floor_div (15.004 : ℚ) 1500
      (by rw [Int.floor_eq_iff]; norm_num) (by norm_num)]
    norm_num

/-- The success equation of `compare_metrics` once both lookups hit. -/
theorem compare_metrics_success_eq (data : KpiData) (metric1 metric2 : String)
    (info1 info2 : MetricInfo)
    (h1 : lookupMetric data.metrics metric1 = some info1)
    (h2 : lookupMetric data.metrics metric2 = some info2) :
    compare_metrics (some data) metric1 metric2 =
      CompareResult.success
        { growth_rate := round2 (calculate_growth_rate info1.data)
          current_value := latestValueD info1.data
          unit := info1.unit }
        { growth_rate := round2 (calculate_growth_rate info2.data)
          current_value := latestValueD info2.data
          unit := info2.unit }
        (if (calculate_growth_rate info1.data > 0 ∧
              calculate_growth_rate info2.data > 0) ∨
            (calculate_growth_rate info1.data < 0 ∧
              calculate_growth_rate info2.data < 0)
          then Correlation.positive else Correlation.negative) := by
  simp only [compare_metrics]
  rw [h1, h2]

/-- C3: when both metrics are present, the `correlation` field of
`compare_metrics` is `positive` exactly when the two growth rates are
both strictly positive or both strictly negative, and `negative`
otherwise. -/
theorem C3_correlation_same_sign (data : KpiData) (metric1 metric2 : String)
    (info1 info2 : MetricInfo)
    (h1 : lookupMetric data.metrics metric1 = some info1)
    (h2 : lookupMetric data.metrics metric2 = some info2) :
    ((compare_metrics (some data) metric1 metric2).correlationOf =
        some Correlation.positive ↔
      ((0 < calculate_growth_rate info1.data ∧
          0 < calculate_growth_rate info2.data) ∨
        (calculate_growth_rate info1.data < 0 ∧
          calculate_growth_rate info2.data < 0))) ∧
    ((compare_metrics (some data) metric1 metric2).correlationOf =
        some Correlation.negative ↔
      ¬ ((0 < calculate_growth_rate info1.data ∧
            0 < calculate_growth_rate info2.data) ∨
          (calculate_growth_rate info1.data < 0 ∧
            calculate_growth_rate info2.data < 0))) := by
  rw [compare_metrics_success_eq data metric1 metric2 info1 info2 h1 h2]
  by_cases hP : (calculate_growth_rate info1.data > 0 ∧
      calculate_growth_rate info2.data > 0) ∨
    (calculate_growth_rate info1.data < 0 ∧
      calculate_growth_rate info2.data < 0)
  · rw [if_pos hP]
    simp [CompareResult.correlationOf, hP]
  · rw [if_neg hP]
    simp [CompareResult.correlationOf, hP]

/-- Witness for C3: in the concrete comparison store, growth rates +10
and +5 classify as positive while +10 and -5 classify as negative. -/
theorem C3_correlation_same_sign_witness :
    (compare_metrics (some compareStore) "metric_plus_ten"
        "metric_plus_five").correlationOf = some Correlation.positive ∧
    (compare_metrics (some compareStore) "metric_plus_ten"
        "metric_minus_five").correlationOf = some Correlation.negative := by
  constructor
  · exact ((C3_correlation_same_sign compareStore "metric_plus_ten"
        "metric_plus_five" infoPlusTen infoPlusFive rfl rfl).1).mpr
      (Or.inl ⟨by norm_num [infoPlusTen, calculate_growth_rate],
        by norm_num [infoPlusFive, calculate_growth_rate]⟩)
  · exact ((C3_correlation_same_sign compareStore "metric_plus_ten"
        "metric_minus_five" infoPlusTen infoMinusFive rfl rfl).2).mpr
      (by
        rintro (⟨_, hb⟩ | ⟨ha, _⟩)
        · exact absurd hb (by norm_num [infoMinusFive, calculate_growth_rate])
        · exact absurd ha (by norm_num [infoPlusTen, calculate_growth_rate]))

/-- C4: `compare_metrics` answers with the not-found error exactly when
at least one of the two identifiers is absent from the store; when both
are present it succeeds, returning each metric's (rounded) growth rate
and current value side by side. -/
theorem C4_compare_requires_both (data : KpiData) (metric1 metric2 : String) :
    ((compare_metrics (some data) metric1 metric2).isError = true ↔
      (lookupMetric data.metrics metric1 = none ∨
        lookupMetric data.metrics metric2 = none)) ∧
    (∀ info1 info2,
      lookupMetric data.metrics metric1 = some info1 →
      lookupMetric data.metrics metric2 = some info2 →
      ∃ corr,
        compare_metrics (some data) metric1 metric2 =
          CompareResult.success
            { growth_rate := round2 (calculate_growth_rate info1.data)
              current_value := latestValueD info1.data
              unit := info1.unit }
            { growth_rate := round2 (calculate_growth_rate info2.data)
              current_value := latestValueD info2.data
              unit := info2.unit }
            corr) := by
  constructor
  · cases hl1 : lookupMetric data.metrics metric1 with
    | none =>
        simp only [compare_metrics]
        rw [hl1]
        cases hl2 : lookupMetric data.metrics metric2 with
        | none => simp [CompareResult.isError]
        | some i2 => simp [CompareResult.isError]
    | some i1 =>
        cases hl2 : lookupMetric data.metrics metric2 with
        | none =>
            simp only [compare_metrics]
            rw [hl1, hl2]
            simp [CompareResult.isError]
        | some i2 =>
            rw [compare_metrics_success_eq data metric1 metric2 i1 i2 hl1 hl2]
            simp [CompareResult.isError]
  · intro info1 info2 h1 h2
    exact ⟨_, compare_metrics_success_eq data metric1 metric2 info1 info2 h1 h2⟩

/-- Witness for C4: in the concrete comparison store, a missing second
identifier yields the error answer, while two present identifiers yield
the side-by-side success answer. -/
theorem C4_compare_requires_both_witness :
    (compare_metrics (some compareStore) "metric_plus_ten"
        "missing_metric").isError = true ∧
    ∃ corr,
      compare_metrics (some compareStore) "metric_plus_ten"
          "metric_plus_five" =
        CompareResult.success
          { growth_rate := round2 (calculate_growth_rate infoPlusTen.data)
            current_value := latestValueD infoPlusTen.data
            unit := infoPlusTen.unit }
          { growth_rate := round2 (calculate_growth_rate infoPlusFive.data)
            current_value := latestValueD infoPlusFive.data
            unit := infoPlusFive.unit }
          corr := by
  constructor
  · exact ((C4_compare_requires_both compareStore "metric_plus_ten"
        "missing_metric").1).mpr (Or.inr rfl)
  · exact (C4_compare_requires_both compareStore "metric_plus_ten"
        "metric_plus_five").2 infoPlusTen infoPlusFive rfl rfl
